import Mathlib

/-!
Verification of the SMART environmental-monitoring firmware sketches.

The repository holds four single-file Arduino sketch variants:
* `V1` — `SMART.ino` (15-minute interval, validity-checked sampler, plain dashboard);
* `V2` — first sketch in `SMARTnew.ino` (hourly interval, validity-checked
  sampler, styled dashboard with color bands and a 7-day date-window filter);
* `V3` — second sketch in `SMARTnew.ino` (15-minute interval, no validity
  check, `GET /download` route);
* `V4` — third sketch in `SMARTnew.ino` (15-minute interval, no validity
  check, two-cell table rendering).

The shallow embedding below models:
* Arduino `String` values as `List Char`, with the `String` member functions
  used by the sketches (`indexOf`, `substring`, `startsWith`, `toInt`)
  translated from their Arduino implementations;
* `float` sensor readings as an explicit not-a-number marker or an exact
  rational (`FVal`); comparisons and `==` follow IEEE behaviour on NaN.
  `Print::print(float)` is modelled with exact rational arithmetic at two
  decimals; no claim depends on the printed digits;
* the SD log file as its list of lines (one line per `println`; the
  terminator handling of `readStringUntil` is modelled as the exact inverse
  of `println`), or as its raw character content where the download route
  streams bytes;
* `millis()` and RTClib `DateTime`/`TimeSpan` arithmetic with explicit
  32-bit (`% 2^32`), 16-bit and 8-bit truncation where the C++ code uses
  fixed-width integers;
* each `client.print`/`client.println` call as one output chunk
  (`List Char`), so a response is a `List (List Char)` in emission order.
-/

/-- One `client.print`/`client.println` call's output. -/
abbrev Chunk := List Char

/-- Character list of a Lean string literal. -/
def str (s : String) : List Char := s.toList

/-- Arduino `println` line terminator. -/
def CRLF : List Char := ['\r', '\n']

/-- Output of one `client.println(s)` call. -/
def pln (s : String) : List Char := s.toList ++ CRLF

/-- Concatenation of a list of lists, used to flatten emission sequences. -/
def catL {α : Type} (l : List (List α)) : List α := l.foldr (fun a b => a ++ b) []

/-- Decimal digit character (used to model `sprintf`-style formatting). -/
def dChar : Nat → Char
  | 0 => '0'
  | 1 => '1'
  | 2 => '2'
  | 3 => '3'
  | 4 => '4'
  | 5 => '5'
  | 6 => '6'
  | 7 => '7'
  | 8 => '8'
  | 9 => '9'
  | _ => '0'

/-- Unpadded decimal rendering of an unsigned integer (Arduino `print(int)`). -/
def natChars (n : Nat) : List Char := Nat.toDigits 10 n

/-- Two-digit zero-padded field of `sprintf "%02u"`. -/
def pad2 (n : Nat) : List Char := [dChar (n / 10 % 10), dChar (n % 10)]

/-- Four-digit zero-padded field of `sprintf "%04u"`. -/
def pad4 (n : Nat) : List Char :=
  [dChar (n / 1000 % 10), dChar (n / 100 % 10), dChar (n / 10 % 10), dChar (n % 10)]

/-- C `isspace`, as used by `atol` when `String::toInt` parses. -/
def isSpaceC (c : Char) : Bool :=
  c = ' ' || c = '\t' || c = '\n' || c = '\x0b' || c = '\x0c' || c = '\r'

/-- Digit-accumulation loop of `atol`: consume decimal digits, stop at the
first non-digit. -/
def digits2Nat : List Char → Nat → Nat
  | [], acc => acc
  | c :: rest, acc =>
    if c.isDigit then digits2Nat rest (10 * acc + (c.toNat - 48)) else acc

/-- `atol`, the implementation behind Arduino `String::toInt`: skip leading
whitespace, optional sign, then decimal digits. -/
def atol (s : List Char) : Int :=
  match s.dropWhile isSpaceC with
  | [] => 0
  | c :: rest =>
    if c = '-' then -(digits2Nat rest 0 : Int)
    else if c = '+' then (digits2Nat rest 0 : Int)
    else (digits2Nat (c :: rest) 0 : Int)

/-- Arduino `String::indexOf(char)`: first index of the character, `-1` when
absent. -/
def ardIndexOf : List Char → Char → Int
  | [], _ => -1
  | a :: rest, c =>
    if a = c then 0
    else
      let i := ardIndexOf rest c
      if i = -1 then -1 else i + 1

/-- Arduino `String::indexOf(char, fromIndex)`: first index at or after
`fromIndex` (absolute), `-1` when absent. -/
def ardIndexOfFrom (s : List Char) (c : Char) (i : Nat) : Int :=
  let j := ardIndexOf (s.drop i) c
  if j = -1 then -1 else j + i

/-- Arduino `String::startsWith`: first argument is the pattern. -/
def ardStartsWith : List Char → List Char → Bool
  | [], _ => true
  | _ :: _, [] => false
  | p :: ps, a :: rest => p = a && ardStartsWith ps rest

/-- Substring occurrence, the routing test `request.indexOf(pat) >= 0`. -/
def containsSub (pat : List Char) : List Char → Bool
  | [] => pat.isEmpty
  | a :: rest => ardStartsWith pat (a :: rest) || containsSub pat rest

/-- Arduino `String::substring(left, right)`: swaps a reversed range and
clamps to the length, returning the characters in `[left, right)`. -/
def ardSubstr (s : List Char) (l r : Nat) : List Char :=
  (s.take (max l r)).drop (min l r)

/-- The comma-splitting `while (indexOf(',', startIdx) != -1)` loop of the
dashboard table renderers, as the list of fields it visits (the remainder
after the last comma is the final field). -/
def splitCommaAux : List Char → List Char → List (List Char)
  | [], acc => [acc.reverse]
  | c :: rest, acc =>
    if c = ',' then acc.reverse :: splitCommaAux rest []
    else splitCommaAux rest (c :: acc)

/-- Fields of a line as visited by the comma-splitting render loop. -/
def splitComma (s : List Char) : List (List Char) := splitCommaAux s []

/-- The `while (available()) readStringUntil('\n')` loop: successive
`'\n'`-terminated segments of the raw file content, the terminator consumed,
with no final empty segment. -/
def splitNlAux : List Char → List Char → List (List Char)
  | [], acc => if acc.isEmpty then [] else [acc.reverse]
  | c :: rest, acc =>
    if c = '\n' then acc.reverse :: splitNlAux rest []
    else splitNlAux rest (c :: acc)

/-- Lines yielded by `readStringUntil('\n')` over a raw file content. -/
def splitNl (s : List Char) : List (List Char) := splitNlAux s []

/-- C cast of a signed `int` value to `unsigned int` (32-bit). -/
def u32n (i : Int) : Nat := (i % 4294967296).toNat

/-- C cast to `uint16_t`. -/
def u16n (i : Int) : Nat := (i % 65536).toNat

/-- C cast to `uint8_t`. -/
def u8n (i : Int) : Nat := (i % 256).toNat

/-- 32-bit truncation of an unsigned value (`unsigned long`). -/
def u32 (n : Nat) : Nat := n % 4294967296

/-- 32-bit unsigned subtraction `a - b`, as wraparound arithmetic. -/
def u32sub (a b : Nat) : Nat := (u32 a + (4294967296 - u32 b)) % 4294967296

/-- The sampling-interval test `currentMillis - previousMillis >= interval`
on `unsigned long` values. -/
def intervalElapsed (cur prev itv : Nat) : Bool := decide (itv ≤ u32sub cur prev)

/-- Logging interval of `SMART.ino` (15 minutes). -/
def intervalV1 : Nat := 900000

/-- Logging interval of the 7-day dashboard sketch (1 hour). -/
def intervalV2 : Nat := 3600000

/-- A `float` sensor reading: not-a-number, or an exact numeric value. -/
inductive FVal
  | nan
  | val (q : ℚ)
deriving DecidableEq

/-- C `isnan`. -/
def FVal.isNan : FVal → Bool
  | FVal.nan => true
  | FVal.val _ => false

/-- Float `==`: false whenever either side is NaN (IEEE semantics). -/
def fbeq : FVal → FVal → Bool
  | FVal.val a, FVal.val b => decide (a = b)
  | _, _ => false

/-- `DEVICE_DISCONNECTED_C`, the DallasTemperature disconnected sentinel. -/
def DEVICE_DISCONNECTED_C : FVal := FVal.val (-127)

/-- `Print::printFloat` with two decimals on a nonnegative value: add the
rounding term, print the integer part, the point, then two extracted digits. -/
def printQ2nn (q : ℚ) : List Char :=
  let q' := q + 1 / 200
  let ip : Nat := (Rat.floor q').toNat
  let r1 := (q' - ip) * 10
  let d1 : Nat := (Rat.floor r1).toNat
  let r2 := (r1 - d1) * 10
  let d2 : Nat := (Rat.floor r2).toNat
  natChars ip ++ '.' :: [dChar d1, dChar d2]

/-- `Print::print(float)` on a numeric value (sign, then two decimals). -/
def printQ2 (q : ℚ) : List Char :=
  if q < 0 then '-' :: printQ2nn (-q) else printQ2nn q

/-- `Print::print(float)`: `"nan"` for NaN, else two-decimal rendering. -/
def pf : FVal → List Char
  | FVal.nan => str "nan"
  | FVal.val q => printQ2 q

/-- RTClib `DateTime`: year offset from 2000 and the remaining fields, each
stored in a `uint8_t`. -/
structure DateTimeR where
  yOff : Nat
  m : Nat
  d : Nat
  hh : Nat
  mm : Nat
  ss : Nat
deriving DecidableEq

/-- The RTClib `DateTime(uint16_t year, ...)` constructor: the year argument
loses 2000 when at least 2000 and every field is truncated to its stored
width. -/
def mkDateTime (year month day hh mm ss : Nat) : DateTimeR :=
  ⟨(if 2000 ≤ year then year - 2000 else year) % 256,
   month % 256, day % 256, hh % 256, mm % 256, ss % 256⟩

/-- RTClib `daysInMonth` table. -/
def daysTab : List Nat := [31, 28, 31, 30, 31, 30, 31, 31, 30, 31, 30, 31]

/-- The `for (i = 1; i < m; ++i) days += daysInMonth[i - 1]` accumulation of
RTClib `date2days` (reads past the table yield 0 in this model). -/
def monthAcc (m : Nat) : Nat := ((daysTab.take (m - 1)).sum)

/-- RTClib `date2days`: days since 2000-01-01 as a `uint16_t` (the final
`- 1` is modelled as the 16-bit wraparound the C subtraction performs). -/
def date2days (y m d : Nat) : Nat :=
  let y' := if 2000 ≤ y then y - 2000 else y
  (d + monthAcc m + (if 2 < m ∧ y' % 4 = 0 then 1 else 0)
    + 365 * y' + (y' + 3) / 4 + 65535) % 65536

/-- RTClib `time2ulong` in `uint32_t` arithmetic. -/
def time2ulong (ds hh mm ss : Nat) : Nat :=
  (((ds * 24 + hh) * 60 + mm) * 60 + ss) % 4294967296

/-- RTClib `DateTime::unixtime()` (`uint32_t`). -/
def unixtime (t : DateTimeR) : Nat :=
  (946684800 + time2ulong (date2days t.yOff t.m t.d) t.hh t.mm t.ss) % 4294967296

/-- Reinterpretation of a `uint32_t` bit pattern as the C++ `int32_t` that
`TimeSpan(int32_t)` receives from `unixtime() - right.unixtime()`. -/
def toInt32 (n : Nat) : Int :=
  if n < 2147483648 then (n : Int) else (n : Int) - 4294967296

/-- `TimeSpan::days()`: `_seconds / 86400L` with C truncating division. -/
def tsDays (secs : Int) : Int := secs.tdiv 86400

/-- `DateTime::timestamp(TIMESTAMP_DATE)`: `sprintf "%04u-%02u-%02u"` of the
full year, month and day. -/
def timestampDate (t : DateTimeR) : List Char :=
  pad4 (2000 + t.yOff) ++ '-' :: pad2 t.m ++ '-' :: pad2 t.d

/-- `DateTime::timestamp(TIMESTAMP_TIME)`: `sprintf "%02u:%02u:%02u"`. -/
def timestampTime (t : DateTimeR) : List Char :=
  pad2 t.hh ++ ':' :: pad2 t.mm ++ ':' :: pad2 t.ss

/-- The `RTCTime` value used by the two older sketches (`RTC.h`), with the
fields their logging code reads. -/
structure RTCTimeR where
  day : Nat
  mon : Nat
  year : Nat
  hh : Nat
  mm : Nat
  ss : Nat
deriving DecidableEq

/-- Log header of `SMART.ino` (`V1`). -/
def headerV1 : List Char :=
  str "Date,Time,Humidity (%),Air Temp (C),Air Temp (F),Heat Index (C),Heat Index (F),Water Temp (C)"

/-- Log header of the 7-day dashboard sketch (`V2`). -/
def headerV2 : List Char :=
  str "Date,Time,Humidity (%),Air Temp (C),Air Temp (F),HI (C),HI (F),Water Temp (C)"

/-- Log header of the two older sketches (`V3`, `V4`). -/
def headerV34 : List Char := str "Date,Time,Temperature,Humidity"

/-- `setup()` log-file initialization of `V1`: open for append and write the
header only when the file is empty (`size() == 0`); an open failure writes
nothing and execution continues. -/
def initLogV1 (log : List (List Char)) (openOk : Bool) : List (List Char) :=
  if openOk && log.isEmpty then log ++ [headerV1] else log

/-- `setup()` log-file initialization of `V2` (same logic, its header). -/
def initLogV2 (log : List (List Char)) (openOk : Bool) : List (List Char) :=
  if openOk && log.isEmpty then log ++ [headerV2] else log

/-- `setup()` log-file initialization of `V3` and `V4`: the header is written
unconditionally whenever the file opens; an open failure halts
(`while (true);`), modelled as `none`. -/
def initLogV34 (log : List (List Char)) (openOk : Bool) : Option (List (List Char)) :=
  if openOk then some (log ++ [headerV34]) else none

/-- One CSV record of the `V1`/`V2` samplers: timestamped fields joined by
commas, written by one `print`/`println` sequence. -/
def recordV12 (now : DateTimeR) (h t f hic hif w : FVal) : List Char :=
  timestampDate now ++ ',' :: timestampTime now ++ ',' :: pf h ++ ',' :: pf t
    ++ ',' :: pf f ++ ',' :: pf hic ++ ',' :: pf hif ++ ',' :: pf w

/-- The interval logging block shared by `V1` and `V2`: reject the sample
when humidity or either air temperature is NaN or the water probe reports the
disconnected sentinel; otherwise append one record when the file opens. -/
def sampleChecked (log : List (List Char)) (now : DateTimeR)
    (h t f hic hif w : FVal) (openOk : Bool) : List (List Char) :=
  if h.isNan || t.isNan || f.isNan || fbeq w DEVICE_DISCONNECTED_C then log
  else if openOk then log ++ [recordV12 now h t f hic hif w] else log

/-- One CSV record of the `V3`/`V4` samplers: unpadded `D/M/Y,H:M:S` then the
two readings. -/
def recordV34 (rt : RTCTimeR) (t h : FVal) : List Char :=
  natChars rt.day ++ '/' :: natChars rt.mon ++ '/' :: natChars rt.year
    ++ ',' :: natChars rt.hh ++ ':' :: natChars rt.mm ++ ':' :: natChars rt.ss
    ++ ',' :: pf t ++ ',' :: pf h

/-- The interval logging block shared by `V3` and `V4`: no validity check;
append one record whenever the file opens. -/
def sampleUnchecked (log : List (List Char)) (rt : RTCTimeR)
    (t h : FVal) (openOk : Bool) : List (List Char) :=
  if openOk then log ++ [recordV34 rt t h] else log

/-- The date parse of the `V2` render loop: `commaIndex = indexOf(',')`,
`dateStr = substring(0, commaIndex)`, then `toInt` of the fixed slices
`[0,4)`, `[5,7)`, `[8,10)`, cast to the widths the `DateTime` constructor
receives. -/
def parseYMDV2 (line : List Char) : Nat × Nat × Nat :=
  let commaIndex := ardIndexOf line ','
  let dateStr := ardSubstr line 0 (u32n commaIndex)
  (u16n (atol (ardSubstr dateStr 0 4)),
   u8n (atol (ardSubstr dateStr 5 7)),
   u8n (atol (ardSubstr dateStr 8 10)))

/-- The `V2` date-window test for one line: build `DateTime(year, month,
day, 0, 0, 0)` from the parsed slices, subtract it from `now` (`TimeSpan` of
the 32-bit difference of `unixtime` values) and keep the line when
`diff.days() <= 7`. -/
def lineIncludedV2 (now : DateTimeR) (line : List Char) : Bool :=
  let ymd := parseYMDV2 line
  let entry := mkDateTime ymd.1 ymd.2.1 ymd.2.2 0 0 0
  decide (tsDays (toInt32 (u32sub (unixtime now) (unixtime entry))) ≤ 7)

/-- The per-field `print` calls of the `V1`/`V2` comma-splitting row loop:
`"<td>"`, the field, `"</td>"` for each comma-terminated field, then
`"<td>"`, the remainder, and the closing `println("</td></tr>")`. -/
def fieldChunks : List (List Char) → List Chunk
  | [] => []
  | [last] => [str "<td>", last, pln "</td></tr>"]
  | fld :: rest => str "<td>" :: fld :: str "</td>" :: fieldChunks rest

/-- All chunks emitted for one line by the `V1`/`V2` table row loop. -/
def rowChunksV12 (line : List Char) : List Chunk :=
  str "<tr>" :: fieldChunks (splitComma line)

/-- Spec-side shape of one rendered row: the line split on commas, every
field wrapped in its own table-cell tag. -/
def specRowHtml (fields : List (List Char)) : List Char :=
  str "<tr>" ++ catL (fields.map (fun f => str "<td>" ++ f ++ str "</td>"))
    ++ str "</tr>" ++ CRLF

/-- `V1` table body: every line of the file is rendered (no header skip, no
filter). -/
def tableRowsV1 (lines : List (List Char)) : List Chunk :=
  catL (lines.map rowChunksV12)

/-- Chunks emitted for one line by the `V2` render loop: skip lines starting
with `"Date"`, then render only lines passing the 7-day window test. -/
def lineChunksV2 (now : DateTimeR) (line : List Char) : List Chunk :=
  if ardStartsWith (str "Date") line then []
  else if lineIncludedV2 now line then rowChunksV12 line else []

/-- `V2` table body. -/
def tableRowsV2 (now : DateTimeR) (lines : List (List Char)) : List Chunk :=
  catL (lines.map (lineChunksV2 now))

/-- One `println("<td>" + f + "</td>")` chunk. -/
def tdLn (f : List Char) : Chunk := str "<td>" ++ f ++ str "</td>" ++ CRLF

/-- Chunks emitted for one line by the `V3` row renderer: a `<tr>` line, four
cells cut at the first three comma positions, and a `</tr>` line. -/
def rowChunksV3 (line : List Char) : List Chunk :=
  let first := ardIndexOf line ','
  let second := ardIndexOfFrom line ',' (u32n (first + 1))
  let third := ardIndexOfFrom line ',' (u32n (second + 1))
  [pln "<tr>",
   tdLn (ardSubstr line 0 (u32n first)),
   tdLn (ardSubstr line (u32n (first + 1)) (u32n second)),
   tdLn (ardSubstr line (u32n (second + 1)) (u32n third)),
   tdLn (line.drop (u32n (third + 1))),
   pln "</tr>"]

/-- `V3` per-line render: skip the header line, else emit the four-cell row. -/
def lineChunksV3 (line : List Char) : List Chunk :=
  if ardStartsWith headerV34 line then [] else rowChunksV3 line

/-- `V3` table body. -/
def tableRowsV3 (lines : List (List Char)) : List Chunk :=
  catL (lines.map lineChunksV3)

/-- Chunks emitted for one line by the `V4` row renderer: a `<tr>` line, the
first field, the remainder after the first comma, and a `</tr>` line. -/
def rowChunksV4 (line : List Char) : List Chunk :=
  [pln "<tr>",
   tdLn (ardSubstr line 0 (u32n (ardIndexOf line ','))),
   tdLn (line.drop (u32n (ardIndexOf line ',' + 1))),
   pln "</tr>"]

/-- `V4` per-line render: skip the header line, else emit the two-cell row. -/
def lineChunksV4 (line : List Char) : List Chunk :=
  if ardStartsWith headerV34 line then [] else rowChunksV4 line

/-- `V4` table body. -/
def tableRowsV4 (lines : List (List Char)) : List Chunk :=
  catL (lines.map lineChunksV4)

/-- `colorIndicator` of the `V2` sketch on numeric values: green band first,
then yellow band (rendered as `"orange"`), else `"red"`; both edges of each
band are inclusive. -/
def colorIndicator (value greenMin greenMax yellowMin yellowMax : ℚ) : String :=
  if greenMin ≤ value ∧ value ≤ greenMax then "green"
  else if yellowMin ≤ value ∧ value ≤ yellowMax then "orange"
  else "red"

/-- `colorIndicator` on a `float` argument: every comparison with NaN is
false, so a NaN value falls through both bands to `"red"`. -/
def colorIndicatorF : FVal → ℚ → ℚ → ℚ → ℚ → String
  | FVal.nan, _, _, _, _ => "red"
  | FVal.val q, a, b, c, d => colorIndicator q a b c d

/-- The sensor tuple read by `V1`/`V2` (`dht.readHumidity`,
`dht.readTemperature`, `dht.readTemperature(true)`, the two
`dht.computeHeatIndex` results, and `sensors.getTempCByIndex(0)`). The heat
indices are vendor-library outputs and enter the model as part of the tuple. -/
structure SensorsFull where
  h : FVal
  t : FVal
  f : FVal
  hic : FVal
  hif : FVal
  w : FVal

/-- The sensor tuple read by `V3`/`V4` (`dht.readTemperature`,
`dht.readTemperature(true)`, `dht.readHumidity`). -/
structure SV34 where
  t : FVal
  f : FVal
  h : FVal

/-- Chunks of the `V1` dashboard before the live-readings section. -/
def dashPreV1 : List Chunk :=
  [pln "HTTP/1.1 200 OK",
   pln "Content-Type: text/html",
   CRLF,
   pln "<html><head><title>Sensor Dashboard</title></head><body>",
   pln "<h2>Live Sensor Readings</h2>"]

/-- Live-readings chunks of the `V1` dashboard (16 print calls). -/
def dashLiveV1 (s : SensorsFull) : List Chunk :=
  [str "<p><strong>Air Humidity:</strong> ", pf s.h, pln "%</p>",
   str "<p><strong>Air Temperature:</strong> ", pf s.t, str "&deg; C / ",
   pf s.f, pln "&deg; F</p>",
   str "<p><strong>Heat Index:</strong> ", pf s.hic, str "&deg; C / ",
   pf s.hif, pln "&deg; F</p>",
   str "<p><strong>Water Temperature:</strong> ", pf s.w, pln "&deg; C</p>"]

/-- Error chunk of the `V1` dashboard when the log cannot be opened. -/
def errChunkV1 : Chunk := pln "<p>Error opening datalog.csv</p>"

/-- Table-header chunk of the `V1` dashboard. -/
def tableHeadV1 : Chunk :=
  pln "<h3>Log Data</h3><table border='1'><tr><th>Date</th><th>Time</th><th>Humidity</th><th>Air Temp (C)</th><th>Air Temp (F)</th><th>HI (C)</th><th>HI (F)</th><th>Water Temp (C)</th></tr>"

/-- Chunks of the `V1` dashboard after the live section: the table header,
the rendered rows (or the visible error line when the file did not open),
then the closing tags. -/
def dashPostV1 (fr : Option (List (List Char))) : List Chunk :=
  [tableHeadV1]
    ++ (match fr with
        | some lines => tableRowsV1 lines
        | none => [errChunkV1])
    ++ [pln "</table></body></html>"]

/-- The `V1` dashboard response (`fr` is the result of opening the log for
reading: `none` when the open failed). -/
def dashboardV1 (s : SensorsFull) (fr : Option (List (List Char))) : List Chunk :=
  dashPreV1 ++ dashLiveV1 s ++ dashPostV1 fr

/-- Chunks of the `V2` dashboard before the live card (status line, style
block, page title — 18 println calls). -/
def dashPreV2 : List Chunk :=
  [pln "HTTP/1.1 200 OK",
   pln "Content-Type: text/html",
   CRLF,
   pln "<!DOCTYPE html><html><head>",
   pln "<meta name='viewport' content='width=device-width, initial-scale=1'>",
   pln "<title>SMART Node Dashboard</title>",
   pln "<style>",
   pln "body \x7b font-family: Arial, sans-serif; background-color:#f4f4f4; margin:0; padding:20px; \x7d",
   pln "h2, h3 \x7b color:#2E8B57; \x7d",
   pln ".card \x7b background-color:#fff; padding:15px; margin:10px 0; border-radius:10px; box-shadow:0 2px 5px rgba(0,0,0,0.2);\x7d",
   pln "table \x7b border-collapse: collapse; width:100%; \x7d",
   pln "th, td \x7b text-align:center; padding:8px; border-bottom:1px solid #ddd; \x7d",
   pln "th \x7b background-color:#2E8B57; color:white; \x7d",
   pln ".green \x7b background-color: #a0e6a0; \x7d",
   pln ".orange \x7b background-color: #f4d27a; \x7d",
   pln ".red \x7b background-color: #f28c8c; \x7d",
   pln "</style></head><body>",
   pln "<h2>SMART Node Environmental Dashboard</h2>"]

/-- Live-card chunks of the `V2` dashboard (24 print calls, including the
`colorIndicator` class names). -/
def dashLiveV2 (s : SensorsFull) : List Chunk :=
  [pln "<div class='card'>",
   str "<p><strong>Air Humidity:</strong> <span class='",
   str (colorIndicatorF s.h 30 60 20 70),
   str "'>", pf s.h, pln "%</span></p>",
   str "<p><strong>Air Temperature:</strong> <span class='",
   str (colorIndicatorF s.t 20 25 15 30),
   str "'>", pf s.t, str " &deg;C / ", pf s.f, pln " &deg;F</span></p>",
   str "<p><strong>Heat Index:</strong> ", pf s.hic, str " &deg;C / ",
   pf s.hif, pln " &deg;F</p>",
   str "<p><strong>Water Temperature:</strong> <span class='",
   str (colorIndicatorF s.w 15 25 10 30),
   str "'>", pf s.w, pln " &deg;C</span></p>",
   pln "</div>"]

/-- Error chunk of the `V2` dashboard when the log cannot be opened. -/
def errChunkV2 : Chunk := pln "<tr><td colspan='8'>Error opening datalog.csv</td></tr>"

/-- Table-header chunk of the `V2` dashboard. -/
def tableHeadV2 : Chunk :=
  pln "<table><tr><th>Date</th><th>Time</th><th>Humidity</th><th>Air Temp (C)</th><th>Air Temp (F)</th><th>HI (C)</th><th>HI (F)</th><th>Water Temp (C)</th></tr>"

/-- Chunks of the `V2` dashboard after the live card. -/
def dashPostV2 (now : DateTimeR) (fr : Option (List (List Char))) : List Chunk :=
  [pln "<h3>Last 7 Days Log</h3>", tableHeadV2]
    ++ (match fr with
        | some lines => tableRowsV2 now lines
        | none => [errChunkV2])
    ++ [pln "</table>", pln "</body></html>"]

/-- The `V2` dashboard response. -/
def dashboardV2 (s : SensorsFull) (now : DateTimeR)
    (fr : Option (List (List Char))) : List Chunk :=
  dashPreV2 ++ dashLiveV2 s ++ dashPostV2 now fr

/-- Chunks of the `V3` default page before the table rows. The sketch sends
no HTTP status line on this path: the body starts directly with `<html>`. -/
def dashPreV3 (s : SV34) : List Chunk :=
  [pln "<html>",
   pln "<head><title>SMART Node 01</title></head>",
   pln "<body>",
   pln "<h1 style=\"text-align:center;\">SMART Node 01</h1>",
   pln "<p><a href=\"/download\" style=\"font-size:2vw;\">[Download All Data]</a></p>",
   str "<p style=\"font-size:2vw;\">Current Temperature Celsius: ",
   pf s.t, str " &#8451;<br></p>",
   str "<p style=\"font-size:2vw;\">Current Temperature Fahrenheit: ",
   pf s.f, str " &#8457;<br></p>",
   str "<p style=\"font-size:2vw;\">Current Humidity: ",
   pf s.h, str " %<br></p>",
   pln "<h2>Data from data.txt:</h2>",
   pln "<table>",
   pln "<tr><th>Date</th><th>Time</th><th>Temperature</th><th>Humidity</th></tr>"]

/-- The `V3` default page: when the read-open fails there is no `else`
branch at all, so the table body is simply absent. -/
def dashboardV3 (s : SV34) (raw : List Char) (openOk : Bool) : List Chunk :=
  dashPreV3 s
    ++ (if openOk then tableRowsV3 (splitNl raw) else [])
    ++ [pln "</table>", pln "</body></html>"]

/-- Chunks of the `V4` dashboard before the table rows. -/
def dashPreV4 (s : SV34) : List Chunk :=
  [pln "HTTP/1.1 200 OK",
   pln "Content-type:text/html",
   CRLF,
   str "<p style=\"font-size:2vw;\"> Current Temperature Celsius: ",
   pf s.t, str " &#8451;<br></p>",
   str "<p style=\"font-size:2vw;\"> Current Temperature Fahrenheit: ",
   pf s.f, str " &#8457;<br></p>",
   str "<p style=\"font-size:2vw;\">Current Humidity: ",
   pf s.h, str " %<br></p>",
   pln "<h2>Data from data.txt:</h2>",
   pln "<table>",
   pln "<tr><th>Date</th><th>Time</th><th>Temperature</th><th>Humidity</th></tr>"]

/-- The `V4` dashboard: on a read-open failure the error is reported only on
the serial diagnostic channel; the client sees no error chunk. -/
def dashboardV4 (s : SV34) (fr : Option (List (List Char))) : List Chunk :=
  dashPreV4 s
    ++ (match fr with
        | some lines => tableRowsV4 lines
        | none => [])
    ++ [pln "</table>", CRLF]

/-- The `V3` request-reading loop: every received character is appended to
`request`; at a newline ending an empty `currentLine` (end of the header
block) the accumulated text is returned for routing. `none` when the input
ends before the header block does (the sketch would then send nothing). -/
def requestHead : List Char → List Char → List Char → Option (List Char)
  | [], _, _ => none
  | c :: rest, cur, req =>
    let req' := req ++ [c]
    if c = '\n' then
      if cur.isEmpty then some req' else requestHead rest [] req'
    else if c = '\r' then requestHead rest cur req'
    else requestHead rest (cur ++ [c]) req'

/-- The routing token tested by `request.indexOf("GET /download") >= 0`. -/
def downloadTok : List Char := str "GET /download"

/-- The `V3` download response: on a successful open, the attachment headers
followed by the file streamed byte by byte; otherwise a 500 with a plaintext
error. -/
def downloadRespV3 (raw : List Char) (openOk : Bool) : List Chunk :=
  if openOk then
    [pln "HTTP/1.1 200 OK",
     pln "Content-Type: text/plain",
     pln "Content-Disposition: attachment; filename=SMART_Node_Data.txt",
     pln "Connection: close",
     CRLF]
      ++ raw.map (fun c => [c])
  else
    [pln "HTTP/1.1 500 Internal Server Error",
     pln "Content-Type: text/plain",
     pln "Connection: close",
     CRLF,
     pln "Error opening data.txt for download."]

/-- The `V3` connection handler: read to the end of the header block, then
route on whether the accumulated request text contains the download token. -/
def handleV3 (input raw : List Char) (openOk : Bool) (s : SV34) : List Chunk :=
  match requestHead input [] [] with
  | none => []
  | some req =>
    if containsSub downloadTok req then downloadRespV3 raw openOk
    else dashboardV3 s raw openOk

/-- The start line of a raw request (characters before the first line
break). -/
def startLineOf (s : List Char) : List Char :=
  s.takeWhile (fun c => !(c = '\r' || c = '\n'))

/-- Persistent state shared by the Sampler and the Presenter: the log file
(as lines) and `previousMillis`. -/
structure NodeState where
  log : List (List Char)
  prevMillis : Nat

/-- Persistent state of `V3`, whose download route streams the raw file. -/
structure NodeStateV3 where
  raw : List Char
  prevMillis : Nat

/-- The client-handling phase of the `V1` loop: when a connection is present,
the dashboard is rendered from a read-only open of the log; the state is
returned unchanged. -/
def clientPhaseV1 (st : NodeState) (conn : Option Unit) (s : SensorsFull)
    (openOk : Bool) : List Chunk × NodeState :=
  match conn with
  | none => ([], st)
  | some _ => (dashboardV1 s (if openOk then some st.log else none), st)

/-- The client-handling phase of the `V2` loop. -/
def clientPhaseV2 (st : NodeState) (conn : Option Unit) (s : SensorsFull)
    (now : DateTimeR) (openOk : Bool) : List Chunk × NodeState :=
  match conn with
  | none => ([], st)
  | some _ => (dashboardV2 s now (if openOk then some st.log else none), st)

/-- The client-handling phase of the `V3` loop: the raw request is read and
routed; both routes open the file only for reading. -/
def clientPhaseV3 (st : NodeStateV3) (conn : Option (List Char)) (s : SV34)
    (openOk : Bool) : List Chunk × NodeStateV3 :=
  match conn with
  | none => ([], st)
  | some input => (handleV3 input st.raw openOk s, st)

/-- The client-handling phase of the `V4` loop. -/
def clientPhaseV4 (st : NodeState) (conn : Option Unit) (s : SV34)
    (openOk : Bool) : List Chunk × NodeState :=
  match conn with
  | none => ([], st)
  | some _ => (dashboardV4 s (if openOk then some st.log else none), st)

/-- The logging phase of the `V2` loop: when the interval has elapsed,
`previousMillis` is set to `currentMillis` (before the validity check, as in
the source) and the checked sampler runs. -/
def samplePhaseV2 (st : NodeState) (curMillis : Nat) (now : DateTimeR)
    (h t f hic hif w : FVal) (openOk : Bool) : NodeState :=
  if intervalElapsed curMillis st.prevMillis intervalV2 then
    ⟨sampleChecked st.log now h t f hic hif w openOk, curMillis⟩
  else st

/-- One `loop()` iteration of `V2`: client phase, then logging phase. -/
def loopStepV2 (st : NodeState) (conn : Option Unit) (s : SensorsFull)
    (now : DateTimeR) (curMillis : Nat) (openRead openWrite : Bool) :
    List Chunk × NodeState :=
  let out := clientPhaseV2 st conn s now openRead
  (out.1, samplePhaseV2 out.2 curMillis now s.h s.t s.f s.hic s.hif s.w openWrite)

/-- A log line whose first field is the `%04u-%02u-%02u` date the `V1`/`V2`
sampler writes. -/
def dateLine (y m d : Nat) (rest : List Char) : List Char :=
  pad4 y ++ '-' :: pad2 m ++ '-' :: pad2 d ++ ',' :: rest

/-! ### Helper lemmas -/

theorem catL_cons {α : Type} (a : List α) (l : List (List α)) :
    catL (a :: l) = a ++ catL l := rfl

theorem catL_append {α : Type} (l₁ l₂ : List (List α)) :
    catL (l₁ ++ l₂) = catL l₁ ++ catL l₂ := by
  induction l₁ with
  | nil => rfl
  | cons a t ih => simp [catL_cons, ih, List.append_assoc]

theorem catL_map_singleton {α : Type} (l : List α) :
    catL (l.map (fun c => [c])) = l := by
  induction l with
  | nil => rfl
  | cons a t ih => simp [catL_cons, ih]

theorem drop_len_append {α : Type} (l₁ l₂ : List α) (n : Nat) (h : l₁.length = n) :
    (l₁ ++ l₂).drop n = l₂ := by
  subst h; exact List.drop_left l₁ l₂

theorem take_len_append {α : Type} (l₁ l₂ : List α) (n : Nat) (h : l₁.length = n) :
    (l₁ ++ l₂).take n = l₁ := by
  subst h; exact List.take_left l₁ l₂

theorem drop_append_cons {α : Type} (a : List α) (x : α) (r : List α) :
    (a ++ x :: r).drop (a.length + 1) = r := by
  induction a with
  | nil => rfl
  | cons y t ih => simp [ih]

theorem dChar_isDigit (k : Nat) : (dChar k).isDigit = true := by
  unfold dChar; split <;> decide

theorem dChar_toNat (k : Nat) (hk : k < 10) : (dChar k).toNat = 48 + k := by
  interval_cases k <;> decide

theorem dChar_not_space (k : Nat) : isSpaceC (dChar k) = false := by
  unfold dChar; split <;> decide

theorem dChar_ne (k : Nat) (c : Char) (hc : c.isDigit = false) : dChar k ≠ c := by
  intro h
  rw [← h, dChar_isDigit k] at hc
  cases hc

theorem comma_ne_dChar (k : Nat) : (',' = dChar k) = False :=
  eq_false fun h => dChar_ne k ',' (by decide) h.symm

theorem dChar_eq_comma (k : Nat) : (dChar k = ',') = False :=
  eq_false fun h => dChar_ne k ',' (by decide) h

theorem dD_ne_dChar (k : Nat) : ('D' = dChar k) = False :=
  eq_false fun h => dChar_ne k 'D' (by decide) h.symm

/-! ### Claim C4 -/

/-- C4: `colorIndicator` is a pure function of its five arguments: it returns
`"green"` iff the value lies in the inclusive green band; otherwise it
returns `"orange"` iff the value lies in the inclusive yellow band; otherwise
it returns `"red"` — for every value and band bounds, including overlapping
bands and gaps. -/
theorem c4_thm (v gMin gMax yMin yMax : ℚ) :
    (colorIndicator v gMin gMax yMin yMax = "green" ↔ gMin ≤ v ∧ v ≤ gMax)
    ∧ (¬(gMin ≤ v ∧ v ≤ gMax) →
        (colorIndicator v gMin gMax yMin yMax = "orange" ↔ yMin ≤ v ∧ v ≤ yMax))
    ∧ (¬(gMin ≤ v ∧ v ≤ gMax) → ¬(yMin ≤ v ∧ v ≤ yMax) →
        colorIndicator v gMin gMax yMin yMax = "red") := by
  have hog : ("orange" : String) ≠ "green" := by decide
  have hrg : ("red" : String) ≠ "green" := by decide
  have hro : ("red" : String) ≠ "orange" := by decide
  unfold colorIndicator
  split_ifs with h1 h2 <;>
    exact ⟨by simp_all, by simp_all, by simp_all⟩

/-- Witness for C4 at concrete inputs. -/
theorem c4_wit : colorIndicator 45 30 60 20 70 = "green" :=
  (c4_thm 45 30 60 20 70).1.mpr (by norm_num)

/-! ### Claim C8 -/

/-- C8: the sampling-interval test uses wraparound-safe unsigned 32-bit
subtraction of the monotonic millisecond counter: for a true elapsed time
`e < 2^32` between the recorded tick `t0` and the current reading, the
condition fires exactly when at least `itv` milliseconds have elapsed, even
when the counter overflows in between. -/
theorem c8_thm (t0 e itv : Nat) (he : e < 4294967296) :
    intervalElapsed (u32 (t0 + e)) (u32 t0) itv = true ↔ itv ≤ e := by
  have key : u32sub (u32 (t0 + e)) (u32 t0) = e := by
    unfold u32sub u32; omega
  unfold intervalElapsed
  rw [key]
  exact decide_eq_true_iff

/-- Witness for C8 across a counter overflow. -/
theorem c8_wit :
    intervalElapsed (u32 (4294966000 + 900000)) (u32 4294966000) 900000 = true :=
  (c8_thm 4294966000 900000 900000 (by norm_num)).mpr (by norm_num)

/-! ### Claim C10 -/

/-- C10: handling a client connection never modifies persistent or Sampler
state: in every variant, the client phase returns the log contents and
`previousMillis` exactly as they were when the connection was accepted. -/
theorem c10_thm :
    ∀ (st : NodeState) (st3 : NodeStateV3) (conn : Option Unit)
      (conn3 : Option (List Char)) (s : SensorsFull) (s34 : SV34)
      (now : DateTimeR) (ok : Bool),
    (clientPhaseV1 st conn s ok).2 = st
    ∧ (clientPhaseV2 st conn s now ok).2 = st
    ∧ (clientPhaseV3 st3 conn3 s34 ok).2 = st3
    ∧ (clientPhaseV4 st conn s34 ok).2 = st := by
  intro st st3 conn conn3 s s34 now ok
  refine ⟨?_, ?_, ?_, ?_⟩ <;>
    first
      | (cases conn <;> rfl)
      | (cases conn3 <;> rfl)

/-! ### Claim C2 -/

/-- C2 (amended): in `V1` and `V2` the header is written only into an empty
file, so a restart against a non-empty log never duplicates it; in `V3` and
`V4`, however, `setup()` appends the header on every successful startup. -/
theorem c2_thm :
    (∀ (log : List (List Char)) (ok : Bool), log ≠ [] → initLogV1 log ok = log)
    ∧ (∀ (log : List (List Char)) (ok : Bool), log ≠ [] → initLogV2 log ok = log)
    ∧ initLogV1 [] true = [headerV1]
    ∧ initLogV2 [] true = [headerV2]
    ∧ (∀ log : List (List Char), initLogV34 log true = some (log ++ [headerV34])) := by
  refine ⟨?_, ?_, rfl, rfl, fun log => rfl⟩ <;>
    · intro log ok h
      cases log with
      | nil => exact absurd rfl h
      | cons a l => cases ok <;> rfl

/-- Witness for C2: a restart of `V1` against a log holding just the header
leaves the file unchanged. -/
theorem c2_wit : initLogV1 [headerV1] true = [headerV1] :=
  c2_thm.1 [headerV1] true (by simp)

/-- Counterexample refuting C2 as stated: a `V3`/`V4` restart against a log
already holding the header appends a second copy. -/
theorem c2_cx :
    initLogV34 [headerV34] true = some [headerV34, headerV34]
    ∧ [headerV34, headerV34].count headerV34 = 2 := by
  exact ⟨rfl, by decide⟩

/-! ### Claim C1 -/

/-- C1 (amended): in `V1` and `V2` no record is appended when humidity or
either air temperature is NaN, when either heat index is NaN (the vendor
heat-index regression only yields NaN when its inputs do, taken here as a
hypothesis), or when the water probe reports the disconnected sentinel; the
older `V3`/`V4` variants perform no validity check and append a record
whenever the file opens. -/
theorem c1_thm (log : List (List Char)) (now : DateTimeR)
    (h t f hic hif w : FVal) (ok : Bool)
    (hpc : hic.isNan = true → t.isNan = true ∨ h.isNan = true)
    (hpf : hif.isNan = true → f.isNan = true ∨ h.isNan = true)
    (hbad : h.isNan = true ∨ t.isNan = true ∨ f.isNan = true ∨ hic.isNan = true
      ∨ hif.isNan = true ∨ w = DEVICE_DISCONNECTED_C) :
    sampleChecked log now h t f hic hif w ok = log
    ∧ ∀ (lg : List (List Char)) (rt : RTCTimeR) (t2 h2 : FVal),
        sampleUnchecked lg rt t2 h2 true = lg ++ [recordV34 rt t2 h2] := by
  constructor
  · have hcond :
        (h.isNan || t.isNan || f.isNan || fbeq w DEVICE_DISCONNECTED_C) = true := by
      rcases hbad with hb | hb | hb | hb | hb | hb
      · simp [hb]
      · simp [hb]
      · simp [hb]
      · rcases hpc hb with h1 | h1 <;> simp [h1]
      · rcases hpf hb with h1 | h1 <;> simp [h1]
      · subst hb; simp [fbeq, DEVICE_DISCONNECTED_C]
    simp [sampleChecked, hcond]
  · intro lg rt t2 h2; rfl

/-- Witness for C1: a NaN humidity reading makes the checked sampler leave
the log untouched. -/
theorem c1_wit :
    sampleChecked [] ⟨25, 6, 8, 10, 30, 0⟩ FVal.nan (FVal.val 20) (FVal.val 68)
      (FVal.val 21) (FVal.val 70) (FVal.val 18) true = [] :=
  (c1_thm [] ⟨25, 6, 8, 10, 30, 0⟩ FVal.nan (FVal.val 20) (FVal.val 68)
    (FVal.val 21) (FVal.val 70) (FVal.val 18) true
    (by decide) (by decide) (Or.inl rfl)).1

/-- Counterexample refuting C1 as stated: in the `V3`/`V4` variants a NaN
temperature and NaN humidity reading still appends one record, so the log's
line count changes. -/
theorem c1_cx :
    (sampleUnchecked [] ⟨18, 4, 2025, 15, 52, 0⟩ FVal.nan FVal.nan true).length = 1
    ∧ sampleUnchecked [] ⟨18, 4, 2025, 15, 52, 0⟩ FVal.nan FVal.nan true ≠ [] := by
  constructor
  · rfl
  · decide

theorem lenPreLiveV1 (s : SensorsFull) : (dashPreV1 ++ dashLiveV1 s).length = 21 := by
  simp [dashPreV1, dashLiveV1]

theorem lenPreLiveV2 (s : SensorsFull) : (dashPreV2 ++ dashLiveV2 s).length = 42 := by
  simp [dashPreV2, dashLiveV2]

/-! ### Claim C9 -/

/-- C9: dashboard rendering is deterministic in the log content: the `V1` and
`V2` responses decompose into a fixed head, the instantaneous-readings
section, and a table section; two responses rendered from the same log
contents (and, for `V2`, the same clock) agree on everything from the table
section on, whatever the sensor readings were. -/
theorem c9_thm :
    ∀ (s1 s2 : SensorsFull) (now : DateTimeR) (fr : Option (List (List Char))),
    dashboardV2 s1 now fr = dashPreV2 ++ dashLiveV2 s1 ++ dashPostV2 now fr
    ∧ (dashboardV2 s1 now fr).drop 42 = (dashboardV2 s2 now fr).drop 42
    ∧ dashboardV1 s1 fr = dashPreV1 ++ dashLiveV1 s1 ++ dashPostV1 fr
    ∧ (dashboardV1 s1 fr).drop 21 = (dashboardV1 s2 fr).drop 21 := by
  intro s1 s2 now fr
  refine ⟨rfl, ?_, rfl, ?_⟩
  · have h1 : dashboardV2 s1 now fr
        = (dashPreV2 ++ dashLiveV2 s1) ++ dashPostV2 now fr := by
      simp [dashboardV2, List.append_assoc]
    have h2 : dashboardV2 s2 now fr
        = (dashPreV2 ++ dashLiveV2 s2) ++ dashPostV2 now fr := by
      simp [dashboardV2, List.append_assoc]
    rw [h1, h2, drop_len_append _ _ _ (lenPreLiveV2 s1),
      drop_len_append _ _ _ (lenPreLiveV2 s2)]
  · have h1 : dashboardV1 s1 fr = (dashPreV1 ++ dashLiveV1 s1) ++ dashPostV1 fr := by
      simp [dashboardV1, List.append_assoc]
    have h2 : dashboardV1 s2 fr = (dashPreV1 ++ dashLiveV1 s2) ++ dashPostV1 fr := by
      simp [dashboardV1, List.append_assoc]
    rw [h1, h2, drop_len_append _ _ _ (lenPreLiveV1 s1),
      drop_len_append _ _ _ (lenPreLiveV1 s2)]

/-! ### Claim C6 -/

/-- C6 (amended): when the log cannot be opened for reading, every variant
still emits its complete page: `V1` and `V2` include a client-visible error
chunk before the closing tags, and their responses open with the 200 status
line; `V3` (whose default page carries no HTTP status line at all) and `V4`
send the same complete page they would send for an empty log, with no
client-visible error. -/
theorem c6_thm :
    (∀ s : SensorsFull, dashboardV1 s none
      = dashPreV1 ++ dashLiveV1 s ++ [tableHeadV1, errChunkV1, pln "</table></body></html>"])
    ∧ (∀ s : SensorsFull, (dashboardV1 s none).head? = some (pln "HTTP/1.1 200 OK"))
    ∧ (∀ (s : SensorsFull) (now : DateTimeR), dashboardV2 s now none
      = dashPreV2 ++ dashLiveV2 s
        ++ [pln "<h3>Last 7 Days Log</h3>", tableHeadV2, errChunkV2,
            pln "</table>", pln "</body></html>"])
    ∧ (∀ (s : SensorsFull) (now : DateTimeR),
        (dashboardV2 s now none).head? = some (pln "HTTP/1.1 200 OK"))
    ∧ (∀ (s : SV34) (raw : List Char), dashboardV3 s raw false
      = dashPreV3 s ++ [pln "</table>", pln "</body></html>"])
    ∧ (∀ (s : SV34) (raw : List Char), dashboardV3 s raw false = dashboardV3 s [] true)
    ∧ (∀ s : SV34, dashboardV4 s none
      = dashPreV4 s ++ [pln "</table>", CRLF])
    ∧ (∀ s : SV34, dashboardV4 s none = dashboardV4 s (some []))
    ∧ (∀ s : SV34, (dashboardV4 s none).head? = some (pln "HTTP/1.1 200 OK")) :=
  ⟨fun _ => rfl, fun _ => rfl, fun _ _ => rfl, fun _ _ => rfl, fun _ _ => rfl,
   fun _ _ => rfl, fun _ => rfl, fun _ => rfl, fun _ => rfl⟩

/-- Counterexample refuting C6 as stated: on a read-open failure the `V4`
page equals the page for an empty log — no chunk carries any error text, so
there is no client-visible error message in place of the table body. -/
theorem c6_cx :
    dashboardV4 ⟨FVal.nan, FVal.nan, FVal.nan⟩ none
      = dashboardV4 ⟨FVal.nan, FVal.nan, FVal.nan⟩ (some [])
    ∧ (dashboardV4 ⟨FVal.nan, FVal.nan, FVal.nan⟩ none).all
        (fun ch => !containsSub (str "Error") ch) = true :=
  ⟨rfl, by decide⟩

/-! ### Claim C7 -/

/-- C7 (amended): in `V3` the routing test scans the whole accumulated
header block (not only the start line): any request whose header text
contains `"GET /download"` receives the download response — 200 with the
attachment header and the raw log streamed verbatim when the file opens, a
500 plaintext error otherwise — and any request whose header text lacks the
token receives the default page. -/
theorem c7_thm (input raw : List Char) (openOk : Bool) (s : SV34)
    (req : List Char) (hreq : requestHead input [] [] = some req) :
    (containsSub downloadTok req = true →
      handleV3 input raw openOk s = downloadRespV3 raw openOk)
    ∧ (containsSub downloadTok req = false →
      handleV3 input raw openOk s = dashboardV3 s raw openOk)
    ∧ catL ((downloadRespV3 raw true).drop 5) = raw := by
  refine ⟨?_, ?_, ?_⟩
  · intro hc; simp [handleV3, hreq, hc]
  · intro hc; simp [handleV3, hreq, hc]
  · have hdrop : (downloadRespV3 raw true).drop 5 = raw.map (fun c => [c]) := rfl
    rw [hdrop, catL_map_singleton]

/-- Witness for C7: a plain `GET /download` request receives the attachment
response. -/
theorem c7_wit :
    handleV3 (str "GET /download HTTP/1.1\r\n\r\n") (str "log") true
      ⟨FVal.nan, FVal.nan, FVal.nan⟩ = downloadRespV3 (str "log") true :=
  (c7_thm (str "GET /download HTTP/1.1\r\n\r\n") (str "log") true
    ⟨FVal.nan, FVal.nan, FVal.nan⟩ (str "GET /download HTTP/1.1\r\n\r\n") rfl).1
    (by decide)

/-- Counterexample refuting C7 as stated: a request whose start line is
`GET / HTTP/1.1` — carrying no download token — but that mentions the token
in a later header line receives the download response instead of the default
dashboard page. -/
theorem c7_cx :
    handleV3 (str "GET / HTTP/1.1\r\nX-Note: GET /download\r\n\r\n") (str "log") true
      ⟨FVal.nan, FVal.nan, FVal.nan⟩ = downloadRespV3 (str "log") true
    ∧ containsSub downloadTok
        (startLineOf (str "GET / HTTP/1.1\r\nX-Note: GET /download\r\n\r\n")) = false :=
  ⟨rfl, by decide⟩

theorem splitCommaAux_ne_nil (s acc : List Char) : splitCommaAux s acc ≠ [] := by
  induction s generalizing acc with
  | nil => simp [splitCommaAux]
  | cons c rest ih =>
    unfold splitCommaAux
    split
    · simp
    · exact ih _

theorem fieldChunks_flat (fs : List (List Char)) (hfs : fs ≠ []) :
    catL (fieldChunks fs)
      = catL (fs.map (fun f => str "<td>" ++ f ++ str "</td>"))
        ++ (str "</tr>" ++ CRLF) := by
  induction fs with
  | nil => exact absurd rfl hfs
  | cons f rest ih =>
    cases rest with
    | nil =>
      have hc : pln "</td></tr>" = str "</td>" ++ (str "</tr>" ++ CRLF) := by decide
      simp [fieldChunks, catL, hc, List.append_assoc]
    | cons g rest2 =>
      have hne : (g :: rest2 : List (List Char)) ≠ [] := by simp
      simp only [fieldChunks, List.map_cons, catL_cons, ih hne]
      simp [List.append_assoc]

theorem row_flat (line : List Char) :
    catL (rowChunksV12 line) = specRowHtml (splitComma line) := by
  have hne : splitComma line ≠ [] := splitCommaAux_ne_nil line []
  unfold rowChunksV12 specRowHtml
  rw [catL_cons, fieldChunks_flat _ hne]
  simp [List.append_assoc]

theorem tableV1_flat (lines : List (List Char)) :
    catL (tableRowsV1 lines)
      = catL (lines.map (fun l => specRowHtml (splitComma l))) := by
  induction lines with
  | nil => rfl
  | cons l ls ih =>
    simp only [tableRowsV1] at ih ⊢
    simp only [List.map_cons, catL_cons, catL_append, row_flat, ih]

theorem tableV2_flat (now : DateTimeR) (lines : List (List Char)) :
    catL (tableRowsV2 now lines)
      = catL ((lines.filter (fun l =>
          !(ardStartsWith (str "Date") l) && lineIncludedV2 now l)).map
          (fun l => specRowHtml (splitComma l))) := by
  induction lines with
  | nil => rfl
  | cons l ls ih =>
    simp only [tableRowsV2] at ih ⊢
    cases h1 : ardStartsWith (str "Date") l with
    | true =>
      simp [List.filter_cons, List.map_cons, catL_cons, catL_append,
        lineChunksV2, h1, ih]
    | false =>
      cases h2 : lineIncludedV2 now l with
      | true =>
        simp [List.filter_cons, List.map_cons, catL_cons, catL_append,
          lineChunksV2, h1, h2, row_flat, ih]
      | false =>
        simp [List.filter_cons, List.map_cons, catL_cons, catL_append,
          lineChunksV2, h1, h2, ih]

theorem tableV3_flat (lines : List (List Char)) :
    tableRowsV3 lines
      = catL ((lines.filter (fun l => !(ardStartsWith headerV34 l))).map
          rowChunksV3) := by
  induction lines with
  | nil => rfl
  | cons l ls ih =>
    simp only [tableRowsV3] at ih ⊢
    cases h1 : ardStartsWith headerV34 l with
    | true => simp [List.filter_cons, List.map_cons, catL_cons, lineChunksV3, h1, ih]
    | false => simp [List.filter_cons, List.map_cons, catL_cons, lineChunksV3, h1, ih]

theorem tableV4_flat (lines : List (List Char)) :
    tableRowsV4 lines
      = catL ((lines.filter (fun l => !(ardStartsWith headerV34 l))).map
          rowChunksV4) := by
  induction lines with
  | nil => rfl
  | cons l ls ih =>
    simp only [tableRowsV4] at ih ⊢
    cases h1 : ardStartsWith headerV34 l with
    | true => simp [List.filter_cons, List.map_cons, catL_cons, lineChunksV4, h1, ih]
    | false => simp [List.filter_cons, List.map_cons, catL_cons, lineChunksV4, h1, ih]

theorem ardIndexOf_append (a r : List Char) (c : Char) (ha : c ∉ a) :
    ardIndexOf (a ++ c :: r) c = (a.length : Int) := by
  induction a with
  | nil => simp [ardIndexOf]
  | cons x xs ih =>
    have hx : ¬(x = c) := fun h => ha (by simp [h])
    have hxs : c ∉ xs := fun h => ha (List.mem_cons_of_mem _ h)
    have hr := ih hxs
    simp only [List.cons_append, ardIndexOf, if_neg hx, List.append_eq, hr]
    rw [if_neg (by omega : ¬((xs.length : Int) = -1))]
    simp only [List.length_cons]
    push_cast
    ring

theorem u32n_natCast (n : Nat) (h : n < 4294967296) : u32n (n : Int) = n := by
  unfold u32n
  rw [Int.emod_eq_of_lt (by positivity) (by exact_mod_cast h)]
  rfl

theorem u32n_add_one (n : Nat) (h : n + 1 < 4294967296) :
    u32n ((n : Int) + 1) = n + 1 := by
  have hcast : ((n : Int) + 1) = ((n + 1 : Nat) : Int) := by push_cast; ring
  rw [hcast]
  exact u32n_natCast _ h

theorem ardIndexOfFrom_eq (s : List Char) (c : Char) (i : Nat) (b r : List Char)
    (hdrop : s.drop i = b ++ c :: r) (hb : c ∉ b) :
    ardIndexOfFrom s c i = ((b.length + i : Nat) : Int) := by
  unfold ardIndexOfFrom
  rw [hdrop, ardIndexOf_append _ _ _ hb]
  rw [if_neg (by omega : ¬((b.length : Int) = -1))]
  push_cast
  ring

theorem ardSubstr_eq (s pre mid post : List Char) (l r : Nat)
    (hs : s = pre ++ (mid ++ post)) (hl : pre.length = l)
    (hr : pre.length + mid.length = r) :
    ardSubstr s l r = mid := by
  have hlr : l ≤ r := by omega
  unfold ardSubstr
  rw [Nat.max_eq_right hlr, Nat.min_eq_left hlr, hs, ← List.append_assoc]
  rw [take_len_append (pre ++ mid) post r (by simp only [List.length_append]; omega)]
  exact drop_len_append pre mid l hl

theorem rowV4cells (a rest : List Char)
    (hlen : (a ++ ',' :: rest).length < 4294967296)
    (ha : ',' ∉ a) :
    rowChunksV4 (a ++ ',' :: rest) = [pln "<tr>", tdLn a, tdLn rest, pln "</tr>"] := by
  have hla : a.length + 1 < 4294967296 := by
    simp only [List.length_append, List.length_cons] at hlen; omega
  have hfirst : ardIndexOf (a ++ ',' :: rest) ',' = (a.length : Int) :=
    ardIndexOf_append a rest ',' ha
  have hc1 : ardSubstr (a ++ ',' :: rest) 0 (u32n (ardIndexOf (a ++ ',' :: rest) ',')) = a := by
    rw [hfirst, u32n_natCast _ (by omega)]
    exact ardSubstr_eq _ [] a (',' :: rest) 0 a.length rfl rfl (by simp)
  have hc2 : (a ++ ',' :: rest).drop (u32n (ardIndexOf (a ++ ',' :: rest) ',' + 1)) = rest := by
    rw [hfirst, u32n_add_one _ hla]
    exact drop_append_cons a ',' rest
  simp only [rowChunksV4, hc1, hc2]

theorem rowV3cells (a b c d : List Char)
    (hlen : (a ++ ',' :: (b ++ ',' :: (c ++ ',' :: d))).length < 4294967296)
    (ha : ',' ∉ a) (hb : ',' ∉ b) (hc : ',' ∉ c) :
    rowChunksV3 (a ++ ',' :: (b ++ ',' :: (c ++ ',' :: d)))
      = [pln "<tr>", tdLn a, tdLn b, tdLn c, tdLn d, pln "</tr>"] := by
  have hlen' : a.length + b.length + c.length + d.length + 3 < 4294967296 := by
    simp only [List.length_append, List.length_cons] at hlen; omega
  have h1 : ardIndexOf (a ++ ',' :: (b ++ ',' :: (c ++ ',' :: d))) ',' = (a.length : Int) :=
    ardIndexOf_append a _ ',' ha
  have e1 : u32n (ardIndexOf (a ++ ',' :: (b ++ ',' :: (c ++ ',' :: d))) ',' + 1)
      = a.length + 1 := by
    rw [h1]; exact u32n_add_one _ (by omega)
  have hd1 : (a ++ ',' :: (b ++ ',' :: (c ++ ',' :: d))).drop (a.length + 1)
      = b ++ ',' :: (c ++ ',' :: d) := drop_append_cons a ',' _
  have h2 : ardIndexOfFrom (a ++ ',' :: (b ++ ',' :: (c ++ ',' :: d))) ',' (a.length + 1)
      = ((b.length + (a.length + 1) : Nat) : Int) :=
    ardIndexOfFrom_eq _ ',' (a.length + 1) b (c ++ ',' :: d) hd1 hb
  have e2 : u32n (ardIndexOfFrom (a ++ ',' :: (b ++ ',' :: (c ++ ',' :: d))) ','
        (a.length + 1) + 1)
      = b.length + (a.length + 1) + 1 := by
    rw [h2]; exact u32n_add_one _ (by omega)
  have hsplit2 : a ++ ',' :: (b ++ ',' :: (c ++ ',' :: d))
      = (a ++ ',' :: b) ++ ',' :: (c ++ ',' :: d) := by simp
  have hd2 : (a ++ ',' :: (b ++ ',' :: (c ++ ',' :: d))).drop (b.length + (a.length + 1) + 1)
      = c ++ ',' :: d := by
    rw [hsplit2]
    have hidx : b.length + (a.length + 1) + 1 = (a ++ ',' :: b).length + 1 := by
      simp only [List.length_append, List.length_cons]; omega
    rw [hidx]
    exact drop_append_cons _ ',' _
  have h3 : ardIndexOfFrom (a ++ ',' :: (b ++ ',' :: (c ++ ',' :: d))) ','
        (b.length + (a.length + 1) + 1)
      = ((c.length + (b.length + (a.length + 1) + 1) : Nat) : Int) :=
    ardIndexOfFrom_eq _ ',' _ c d hd2 hc
  have e3 : u32n (ardIndexOfFrom (a ++ ',' :: (b ++ ',' :: (c ++ ',' :: d))) ','
        (b.length + (a.length + 1) + 1) + 1)
      = c.length + (b.length + (a.length + 1) + 1) + 1 := by
    rw [h3]; exact u32n_add_one _ (by omega)
  have hc1 : ardSubstr (a ++ ',' :: (b ++ ',' :: (c ++ ',' :: d))) 0
      (u32n (ardIndexOf (a ++ ',' :: (b ++ ',' :: (c ++ ',' :: d))) ',')) = a := by
    rw [h1, u32n_natCast _ (by omega)]
    exact ardSubstr_eq _ [] a _ 0 a.length rfl rfl (by simp)
  have hc2 : ardSubstr (a ++ ',' :: (b ++ ',' :: (c ++ ',' :: d))) (a.length + 1)
      (u32n (ardIndexOfFrom (a ++ ',' :: (b ++ ',' :: (c ++ ',' :: d))) ',' (a.length + 1))) = b := by
    rw [h2, u32n_natCast _ (by omega)]
    refine ardSubstr_eq _ (a ++ [',']) b (',' :: (c ++ ',' :: d)) _ _ ?_ ?_ ?_
    · simp
    · simp
    · simp only [List.length_append, List.length_cons, List.length_nil]; omega
  have hc3 : ardSubstr (a ++ ',' :: (b ++ ',' :: (c ++ ',' :: d)))
      (b.length + (a.length + 1) + 1)
      (u32n (ardIndexOfFrom (a ++ ',' :: (b ++ ',' :: (c ++ ',' :: d))) ','
        (b.length + (a.length + 1) + 1))) = c := by
    rw [h3, u32n_natCast _ (by omega)]
    refine ardSubstr_eq _ ((a ++ ',' :: b) ++ [',']) c (',' :: d) _ _ ?_ ?_ ?_
    · simp
    · simp only [List.length_append, List.length_cons, List.length_nil]; omega
    · simp only [List.length_append, List.length_cons, List.length_nil]; omega
  have hc4 : (a ++ ',' :: (b ++ ',' :: (c ++ ',' :: d))).drop
      (u32n (ardIndexOfFrom (a ++ ',' :: (b ++ ',' :: (c ++ ',' :: d))) ','
        (b.length + (a.length + 1) + 1) + 1)) = d := by
    rw [e3]
    have hsplit3 : a ++ ',' :: (b ++ ',' :: (c ++ ',' :: d))
        = ((a ++ ',' :: b) ++ ',' :: c) ++ ',' :: d := by simp
    rw [hsplit3]
    have hidx : c.length + (b.length + (a.length + 1) + 1) + 1
        = ((a ++ ',' :: b) ++ ',' :: c).length + 1 := by
      simp only [List.length_append, List.length_cons]; omega
    rw [hidx]
    exact drop_append_cons _ ',' _
  simp only [rowChunksV3]
  rw [e1, e2, hc1, hc2, hc3, hc4]

/-! ### Claim C3 -/

/-- C3 (amended): rendering the log table differs by variant. In `V1` every
line of the file — the header included, which is not skipped — is emitted as
one table row obtained by splitting the line on commas and wrapping each
field in its own cell; in `V2` lines starting with `"Date"` are skipped and
exactly the lines passing the 7-day window are emitted comma-split; in `V3`
the header line is skipped and each remaining line is emitted as one row of
exactly four cells cut at its first three commas; in `V4` the header line is
skipped and each remaining line is emitted as one row of exactly two cells,
the first field and the whole remainder after the first comma. -/
theorem c3_thm :
    (∀ lines : List (List Char), catL (tableRowsV1 lines)
      = catL (lines.map (fun l => specRowHtml (splitComma l))))
    ∧ (∀ (now : DateTimeR) (lines : List (List Char)), catL (tableRowsV2 now lines)
      = catL ((lines.filter (fun l =>
          !(ardStartsWith (str "Date") l) && lineIncludedV2 now l)).map
          (fun l => specRowHtml (splitComma l))))
    ∧ (∀ lines : List (List Char), tableRowsV3 lines
      = catL ((lines.filter (fun l => !(ardStartsWith headerV34 l))).map rowChunksV3))
    ∧ (∀ a b c d : List Char,
        (a ++ ',' :: (b ++ ',' :: (c ++ ',' :: d))).length < 4294967296 →
        ',' ∉ a → ',' ∉ b → ',' ∉ c →
        rowChunksV3 (a ++ ',' :: (b ++ ',' :: (c ++ ',' :: d)))
          = [pln "<tr>", tdLn a, tdLn b, tdLn c, tdLn d, pln "</tr>"])
    ∧ (∀ lines : List (List Char), tableRowsV4 lines
      = catL ((lines.filter (fun l => !(ardStartsWith headerV34 l))).map rowChunksV4))
    ∧ (∀ a rest : List Char, (a ++ ',' :: rest).length < 4294967296 → ',' ∉ a →
        rowChunksV4 (a ++ ',' :: rest)
          = [pln "<tr>", tdLn a, tdLn rest, pln "</tr>"]) :=
  ⟨tableV1_flat, tableV2_flat, tableV3_flat, rowV3cells, tableV4_flat, rowV4cells⟩

/-- Witness for C3's hypotheses at concrete rows. -/
theorem c3_wit :
    rowChunksV3 (str "a" ++ ',' :: (str "b" ++ ',' :: (str "c" ++ ',' :: str "d")))
      = [pln "<tr>", tdLn (str "a"), tdLn (str "b"), tdLn (str "c"), tdLn (str "d"),
         pln "</tr>"]
    ∧ rowChunksV4 (str "1/2/2025" ++ ',' :: str "12:0:0")
      = [pln "<tr>", tdLn (str "1/2/2025"), tdLn (str "12:0:0"), pln "</tr>"] :=
  ⟨c3_thm.2.2.2.1 (str "a") (str "b") (str "c") (str "d")
      (by decide) (by decide) (by decide) (by decide),
   c3_thm.2.2.2.2.2 (str "1/2/2025") (str "12:0:0") (by decide) (by decide)⟩

/-- Counterexample refuting C3 as stated: `V1` does not skip the header
line — a log holding only the header still renders a table row. -/
theorem c3_cx :
    tableRowsV1 [headerV1] ≠ []
    ∧ (tableRowsV1 [headerV1]).head? = some (str "<tr>") := by
  constructor
  · decide
  · decide

theorem atol_dchar_cons (a : Nat) (rest : List Char) :
    atol (dChar a :: rest) = (digits2Nat (dChar a :: rest) 0 : Int) := by
  have hdw : (dChar a :: rest).dropWhile isSpaceC = dChar a :: rest := by
    simp [List.dropWhile_cons, dChar_not_space]
  unfold atol
  rw [hdw]
  simp [eq_false (dChar_ne a '-' (by decide)), eq_false (dChar_ne a '+' (by decide))]

theorem digits2Nat_cons_digit (a : Nat) (ha : a < 10) (rest : List Char) (acc : Nat) :
    digits2Nat (dChar a :: rest) acc = digits2Nat rest (10 * acc + a) := by
  have h : digits2Nat (dChar a :: rest) acc
      = if (dChar a).isDigit = true then
          digits2Nat rest (10 * acc + ((dChar a).toNat - 48))
        else acc := rfl
  rw [h, dChar_isDigit]
  simp [dChar_toNat a ha]

theorem atol_digits2 (a b : Nat) (ha : a < 10) (hb : b < 10) :
    atol [dChar a, dChar b] = ((10 * a + b : Nat) : Int) := by
  rw [atol_dchar_cons, digits2Nat_cons_digit a ha, digits2Nat_cons_digit b hb]
  norm_num [digits2Nat]

theorem atol_digits4 (a b c d : Nat) (ha : a < 10) (hb : b < 10) (hc : c < 10)
    (hd : d < 10) :
    atol [dChar a, dChar b, dChar c, dChar d]
      = ((1000 * a + 100 * b + 10 * c + d : Nat) : Int) := by
  rw [atol_dchar_cons, digits2Nat_cons_digit a ha, digits2Nat_cons_digit b hb,
    digits2Nat_cons_digit c hc, digits2Nat_cons_digit d hd]
  norm_num [digits2Nat]
  ring

theorem u16n_natCast (n : Nat) (h : n < 65536) : u16n (n : Int) = n := by
  unfold u16n
  rw [Int.emod_eq_of_lt (by positivity) (by exact_mod_cast h)]
  rfl

theorem u8n_natCast (n : Nat) (h : n < 256) : u8n (n : Int) = n := by
  unfold u8n
  rw [Int.emod_eq_of_lt (by positivity) (by exact_mod_cast h)]
  rfl

theorem atol_pad4 (y : Nat) (hy : y < 10000) : atol (pad4 y) = (y : Int) := by
  unfold pad4
  rw [atol_digits4 _ _ _ _ (Nat.mod_lt _ (by norm_num)) (Nat.mod_lt _ (by norm_num))
    (Nat.mod_lt _ (by norm_num)) (Nat.mod_lt _ (by norm_num))]
  exact Nat.cast_inj.mpr (by omega)

theorem atol_pad2 (m : Nat) (hm : m < 100) : atol (pad2 m) = (m : Int) := by
  unfold pad2
  rw [atol_digits2 _ _ (Nat.mod_lt _ (by norm_num)) (Nat.mod_lt _ (by norm_num))]
  exact Nat.cast_inj.mpr (by omega)

theorem parseYMDV2_dateLine (y m d : Nat) (rest : List Char)
    (hy : y < 10000) (hm : m < 100) (hd : d < 100) :
    parseYMDV2 (dateLine y m d rest) = (y, m, d) := by
  have hne : (',' = '-') = False := by decide
  have hidx : ardIndexOf (dateLine y m d rest) ',' = (10 : Int) := by
    have hsh : dateLine y m d rest
        = (pad4 y ++ '-' :: (pad2 m ++ '-' :: pad2 d)) ++ ',' :: rest := by
      simp [dateLine]
    rw [hsh, ardIndexOf_append _ _ _ (by simp [pad4, pad2, comma_ne_dChar, hne])]
    norm_num [pad4, pad2]
  have h10 : u32n (10 : Int) = 10 := by decide
  have hds : ardSubstr (dateLine y m d rest) 0 10
      = pad4 y ++ '-' :: (pad2 m ++ '-' :: pad2 d) := by
    refine ardSubstr_eq _ [] _ (',' :: rest) 0 10 ?_ rfl ?_
    · simp [dateLine]
    · simp [pad4, pad2]
  have hy' : ardSubstr (pad4 y ++ '-' :: (pad2 m ++ '-' :: pad2 d)) 0 4 = pad4 y :=
    ardSubstr_eq _ [] (pad4 y) ('-' :: (pad2 m ++ '-' :: pad2 d)) 0 4 rfl rfl
      (by simp [pad4])
  have hm' : ardSubstr (pad4 y ++ '-' :: (pad2 m ++ '-' :: pad2 d)) 5 7 = pad2 m :=
    ardSubstr_eq _ (pad4 y ++ ['-']) (pad2 m) ('-' :: pad2 d) 5 7
      (by simp [pad4, pad2]) (by simp [pad4]) (by simp [pad4, pad2])
  have hd' : ardSubstr (pad4 y ++ '-' :: (pad2 m ++ '-' :: pad2 d)) 8 10 = pad2 d :=
    ardSubstr_eq _ (pad4 y ++ '-' :: (pad2 m ++ ['-'])) (pad2 d) [] 8 10
      (by simp [pad4, pad2]) (by simp [pad4, pad2]) (by simp [pad4, pad2])
  simp only [parseYMDV2]
  rw [hidx, h10, hds, hy', hm', hd', atol_pad4 y hy, atol_pad2 m hm, atol_pad2 d hd,
    u16n_natCast y (by omega), u8n_natCast m (by omega), u8n_natCast d (by omega)]

theorem monthAcc_le (m : Nat) (hm : m ≤ 12) : monthAcc m ≤ 334 := by
  interval_cases m <;> decide

theorem date2days_eval (y' m d : Nat) (hy : y' ≤ 100) (hm : m ≤ 12)
    (hd1 : 1 ≤ d) (hd : d ≤ 31) :
    date2days y' m d
      = d + monthAcc m + (if 2 < m ∧ y' % 4 = 0 then 1 else 0)
        + 365 * y' + (y' + 3) / 4 - 1
    ∧ date2days y' m d ≤ 36890 := by
  have hma := monthAcc_le m hm
  simp only [date2days]
  rw [if_neg (by omega : ¬(2000 ≤ y'))]
  have hL1 : (if 2 < m ∧ y' % 4 = 0 then 1 else 0) ≤ 1 := by split <;> omega
  have hq25 : (y' + 3) / 4 ≤ 25 := by omega
  generalize hgL : (if 2 < m ∧ y' % 4 = 0 then 1 else 0) = L at hL1 ⊢
  generalize hgA : monthAcc m = mA at hma ⊢
  generalize hgq : (y' + 3) / 4 = q4 at hq25 ⊢
  clear hgL hgA hgq
  have h1 : (d + mA + L + 365 * y' + q4 + 65535) % 65536
      = d + mA + L + 365 * y' + q4 - 1 := by omega
  refine ⟨h1, ?_⟩
  rw [h1]
  omega

theorem unixtime_eval (t : DateTimeR) (h1 : t.yOff ≤ 100) (h2 : t.m ≤ 12)
    (h3 : 1 ≤ t.d) (h4 : t.d ≤ 31) (h5 : t.hh < 24) (h6 : t.mm < 60)
    (h7 : t.ss < 60) :
    unixtime t = 946684800 + (date2days t.yOff t.m t.d) * 86400
      + (t.hh * 3600 + t.mm * 60 + t.ss)
    ∧ unixtime t < 4294967296 := by
  have hdd := (date2days_eval t.yOff t.m t.d h1 h2 h3 h4).2
  unfold unixtime time2ulong
  constructor <;> omega

/-! ### Claim C5 -/

/-- C5 (amended): in the 7-day variant, a data row whose date field is the
`YYYY-MM-DD` rendering of a date exactly `k` calendar days before the
device's current date is rendered if and only if `k ≤ 7`, for every
time-of-day of "now" — provided the age in seconds (`k` days plus the
time-of-day) stays below `2^31`, the range of the signed 32-bit `TimeSpan`;
rows at least `2^31` seconds (about 68 years) old wrap to a negative
difference and are erroneously included (see the counterexample). -/
theorem c5_thm (now : DateTimeR) (y m d k : Nat) (rest : List Char)
    (h1 : now.yOff ≤ 100) (h2 : now.m ≤ 12) (h3 : 1 ≤ now.d) (h4 : now.d ≤ 31)
    (h5 : now.hh < 24) (h6 : now.mm < 60) (h7 : now.ss < 60)
    (hy1 : 2000 ≤ y) (hy2 : y ≤ 2100)
    (hm1 : 1 ≤ m) (hm2 : m ≤ 12) (hd1 : 1 ≤ d) (hd2 : d ≤ 31)
    (hD : date2days now.yOff now.m now.d = date2days (y - 2000) m d + k)
    (hOv : k * 86400 + (now.hh * 3600 + now.mm * 60 + now.ss) < 2147483648) :
    lineChunksV2 now (dateLine y m d rest)
      = (if k ≤ 7 then rowChunksV12 (dateLine y m d rest) else [])
    ∧ rowChunksV12 (dateLine y m d rest) ≠ [] := by
  have hnd : ardStartsWith (str "Date") (dateLine y m d rest) = false := by
    have hs : str "Date" = 'D' :: ['a', 't', 'e'] := by decide
    rw [hs]
    simp [dateLine, pad4, ardStartsWith, dD_ne_dChar]
  have hparse : parseYMDV2 (dateLine y m d rest) = (y, m, d) :=
    parseYMDV2_dateLine y m d rest (by omega) (by omega) (by omega)
  have hentry : mkDateTime y m d 0 0 0 = ⟨y - 2000, m, d, 0, 0, 0⟩ := by
    simp only [mkDateTime, if_pos hy1]
    rw [Nat.mod_eq_of_lt (show y - 2000 < 256 by omega),
      Nat.mod_eq_of_lt (show m < 256 by omega),
      Nat.mod_eq_of_lt (show d < 256 by omega)]
  obtain ⟨hunEq, hunLt⟩ := unixtime_eval now h1 h2 h3 h4 h5 h6 h7
  have hueP := unixtime_eval ⟨y - 2000, m, d, 0, 0, 0⟩
    (show y - 2000 ≤ 100 by omega) (show m ≤ 12 from hm2)
    (show 1 ≤ d from hd1) (show d ≤ 31 from hd2)
    (show (0 : Nat) < 24 by norm_num) (show (0 : Nat) < 60 by norm_num)
    (show (0 : Nat) < 60 by norm_num)
  have hueEq : unixtime ⟨y - 2000, m, d, 0, 0, 0⟩
      = 946684800 + (date2days (y - 2000) m d) * 86400
        + (0 * 3600 + 0 * 60 + 0) := hueP.1
  have hueLt : unixtime ⟨y - 2000, m, d, 0, 0, 0⟩ < 4294967296 := hueP.2
  have hinc : lineIncludedV2 now (dateLine y m d rest) = decide (k ≤ 7) := by
    simp only [lineIncludedV2, hparse]
    rw [hentry]
    have hsub : u32sub (unixtime now) (unixtime ⟨y - 2000, m, d, 0, 0, 0⟩)
        = k * 86400 + (now.hh * 3600 + now.mm * 60 + now.ss) := by
      have hd2b := (date2days_eval (y - 2000) m d (by omega) hm2 hd1 hd2).2
      have hdnb := (date2days_eval now.yOff now.m now.d h1 h2 h3 h4).2
      unfold u32sub u32
      rw [Nat.mod_eq_of_lt hunLt, Nat.mod_eq_of_lt hueLt]
      omega
    rw [hsub]
    have hto : toInt32 (k * 86400 + (now.hh * 3600 + now.mm * 60 + now.ss))
        = ((k * 86400 + (now.hh * 3600 + now.mm * 60 + now.ss) : Nat) : Int) := by
      unfold toInt32
      rw [if_pos hOv]
    rw [hto]
    have hdiv : tsDays ((k * 86400 + (now.hh * 3600 + now.mm * 60 + now.ss) : Nat) : Int)
        = (((k * 86400 + (now.hh * 3600 + now.mm * 60 + now.ss)) / 86400 : Nat) : Int) :=
      rfl
    rw [hdiv]
    have hk : (k * 86400 + (now.hh * 3600 + now.mm * 60 + now.ss)) / 86400 = k := by
      omega
    rw [hk]
    exact decide_eq_decide.mpr (by omega)
  constructor
  · simp only [lineChunksV2, hnd, hinc]
    by_cases hk7 : k ≤ 7 <;> simp [hk7]
  · simp [rowChunksV12]

/-- Witness for C5: a row dated exactly 7 days before now is rendered. -/
theorem c5_wit :
    lineChunksV2 ⟨25, 6, 8, 10, 30, 0⟩ (dateLine 2025 6 1 (str "x"))
      = rowChunksV12 (dateLine 2025 6 1 (str "x")) := by
  have h := (c5_thm ⟨25, 6, 8, 10, 30, 0⟩ 2025 6 1 7 (str "x")
    (by norm_num) (by norm_num) (by norm_num) (by norm_num) (by norm_num)
    (by norm_num) (by norm_num) (by norm_num) (by norm_num) (by norm_num)
    (by norm_num) (by norm_num) (by norm_num) (by decide) (by norm_num)).1
  rw [h, if_pos (by norm_num)]

/-- Counterexample refuting C5 as stated: at now = 2070-01-01 00:00:00 a row
dated 2000-01-01 — 25568 calendar days, far more than 7, before now — still
passes the window test, because the 32-bit signed seconds difference
overflows to a negative value. -/
theorem c5_cx :
    lineIncludedV2 ⟨70, 1, 1, 0, 0, 0⟩ (str "2000-01-01,x") = true
    ∧ date2days 70 1 1 = date2days 0 1 1 + 25568
    ∧ 7 < 25568 := by
  refine ⟨by decide, by decide, by norm_num⟩
